import Mathlib

/-!
Verification of the multi-engine correlation brain
(frontend/detector/correlation_engine.py, class CorrelationBrain).

Shallow embedding conventions:
* Python dict fields that may be absent are Option-valued; a field that is
  present but falsy (empty string) is modelled as `some ""` and the source's
  truthiness tests are translated explicitly.
* Timestamps are integers (time.time() is passed in as the parameter `now`
  of each call; within one ingest call the source reads the clock several
  times, always within the same instant for our purposes).
* Python dicts used as maps (self.memory, self.cooldowns, and the
  severity-count dict) become insertion-ordered association lists, matching
  dict iteration semantics.
* Python set(...) iteration order is unspecified; we model it as
  first-occurrence order, a deterministic refinement.
* The KeyError raised by `severity_counts[severity] += 1` on a severity
  outside Critical/High/Medium/Low is modelled with Except: ingest returns
  the partially-updated state together with `.error ()` in that case,
  matching the exception propagating out of ingest_alert after the
  side effects performed so far.
* `int(score * m)` for m ∈ {1.5, 2.0, 2.5} on a non-negative integer score
  is modelled as exact truncated (= floored) arithmetic: (3*s)/2, 2*s,
  (5*s)/2 in Nat.
-/

namespace CorrelationBrain

/-- One level of nested payload: the `flow_data` sub-object, probed for the
same seven IP field aliases as the top level. -/
structure FlowData where
  ip_address : Option String := none
  source_ip : Option String := none
  destination_ip : Option String := none
  SourceIP : Option String := none
  DestinationIP : Option String := none
  target_ip : Option String := none
  attacker_ip : Option String := none
  deriving DecidableEq

/-- The `user_profile` sub-object, probed for the three user field aliases. -/
structure UserProfile where
  user_id : Option String := none
  username : Option String := none
  email : Option String := none
  deriving DecidableEq

/-- The recognized fields of an alert's `details` payload. Fields the source
never probes are irrelevant to the engine and are not represented. A missing
`details` key behaves exactly like an empty payload (`alert.get('details', {})`),
so `details` is represented directly with all-absent defaults. -/
structure Details where
  ip_address : Option String := none
  source_ip : Option String := none
  destination_ip : Option String := none
  SourceIP : Option String := none
  DestinationIP : Option String := none
  target_ip : Option String := none
  attacker_ip : Option String := none
  flow_data : Option FlowData := none
  user_id : Option String := none
  username : Option String := none
  email : Option String := none
  user_profile : Option UserProfile := none
  file_hash : Option String := none
  filename : Option String := none
  deriving DecidableEq

/-- An alert as the engine consumes it: `engine`, `severity`, `alertType`
keys may be absent (the source reads them with .get and defaults);
`timestamp` is the key the engine itself assigns on ingestion. -/
structure Alert where
  engine : Option String := none
  severity : Option String := none
  alertType : Option String := none
  details : Details := {}
  timestamp : Int := 0
  deriving DecidableEq

/-- `if field in details and details[field]`: a present, truthy string value. -/
def truthy : Option String → List String
  | some s => if s = "" then [] else [s]
  | none => []

/-- IP entities from a record holding the seven alias fields, in source order. -/
def ipEntities (a b c d e f g : Option String) : List String :=
  truthy a ++ truthy b ++ truthy c ++ truthy d ++ truthy e ++ truthy f ++ truthy g

/-- User entities (prefixed USER:) from the three alias fields, in source order. -/
def userEntities (a b c : Option String) : List String :=
  (truthy a ++ truthy b ++ truthy c).map (fun v => "USER:" ++ v)

/-- `list(set(entities))`: duplicate removal. The source's set iteration order
is unspecified; modelled as keep-first-occurrence order. -/
def dedup {α : Type} [DecidableEq α] (l : List α) : List α :=
  l.foldl (fun acc x => if x ∈ acc then acc else acc ++ [x]) []

/-- CorrelationBrain._extract_entities: IP aliases, flow_data IPs, user
aliases, user_profile users, file hash, filename, then de-duplicated. -/
def extractEntities (a : Alert) : List String :=
  let d := a.details
  let ips := ipEntities d.ip_address d.source_ip d.destination_ip d.SourceIP
    d.DestinationIP d.target_ip d.attacker_ip
  let flowIps := match d.flow_data with
    | some f => ipEntities f.ip_address f.source_ip f.destination_ip f.SourceIP
        f.DestinationIP f.target_ip f.attacker_ip
    | none => []
  let users := userEntities d.user_id d.username d.email
  let profUsers := match d.user_profile with
    | some p => userEntities p.user_id p.username p.email
    | none => []
  let hashes := (truthy d.file_hash).map (fun v => "HASH:" ++ v)
  let files := (truthy d.filename).map (fun v => "FILE:" ++ v)
  dedup (ips ++ flowIps ++ users ++ profUsers ++ hashes ++ files)

/-- The severity_counts dict, initialized with exactly four keys. -/
structure SevCounts where
  critical : Nat := 0
  high : Nat := 0
  medium : Nat := 0
  low : Nat := 0
  deriving DecidableEq

/-- `severity_counts[severity] += 1`: succeeds only for the four initialized
keys, otherwise KeyError (none). The severity was already defaulted with
.get('severity', 'Low'), so a missing key counts as Low. -/
def SevCounts.bump (c : SevCounts) (sev : String) : Option SevCounts :=
  if sev = "Critical" then some { c with critical := c.critical + 1 }
  else if sev = "High" then some { c with high := c.high + 1 }
  else if sev = "Medium" then some { c with medium := c.medium + 1 }
  else if sev = "Low" then some { c with low := c.low + 1 }
  else none

/-- Base score per alert: Critical=40, High=20, Medium=10, anything else 5. -/
def severityBase (sev : String) : Nat :=
  if sev = "Critical" then 40
  else if sev = "High" then 20
  else if sev = "Medium" then 10
  else 5

/-- `alert.get('severity', 'Low')`. -/
def Alert.sevD (a : Alert) : String := a.severity.getD "Low"

/-- `alert.get('engine', 'Unknown')` as used by the risk scorer. -/
def Alert.engD (a : Alert) : String := a.engine.getD "Unknown"

/-- The accumulation loop of _calculate_risk_score: per alert, add the engine
to the involved set, bump the severity count (KeyError on unknown severity),
and add the base score. -/
def calcLoop : List Alert → Nat → List String → SevCounts →
    Except Unit (Nat × List String × SevCounts)
  | [], sc, eng, cnt => .ok (sc, eng, cnt)
  | a :: rest, sc, eng, cnt =>
    let eng' := if a.engD ∈ eng then eng else eng ++ [a.engD]
    match cnt.bump a.sevD with
    | none => .error ()
    | some cnt' => calcLoop rest (sc + severityBase a.sevD) eng' cnt'

/-- The correlation multiplier applied to the summed score, keyed to the
number of distinct engines: `int(score*1.5)` at 2, `int(score*2.0)` at 3,
`int(score*2.5)` at 4 or more, unchanged otherwise. -/
def applyMult (numEngines score : Nat) : Nat :=
  if numEngines = 2 then 3 * score / 2
  else if numEngines = 3 then 2 * score
  else if 4 ≤ numEngines then 5 * score / 2
  else score

/-- CorrelationBrain._calculate_risk_score. Returns
(risk_score, engines_involved, severity_breakdown); raises KeyError (error)
when some alert carries a severity outside the four initialized keys. -/
def calcRiskScore (alerts : List Alert) : Except Unit (Nat × List String × SevCounts) :=
  match calcLoop alerts 0 [] {} with
  | .error e => .error e
  | .ok (sc, eng, cnt) => .ok (applyMult eng.length sc, eng, cnt)

/-- CorrelationBrain._detect_attack_patterns: the five fixed rules, evaluated
against the set of distinct `alert.get('engine')` values (None for a missing
key) and, for MALWARE_OUTBREAK, the count of Artifact Engine alerts. -/
def detectAttackPatterns (alerts : List Alert) : List String :=
  let engines := dedup (alerts.map (·.engine))
  let p1 := if some "Artifact Engine" ∈ engines ∧ some "Traffic Engine" ∈ engines ∧
      some "Threat Intelligence" ∈ engines then
    ["APT_CHAIN: Malware → C2 Communication → Known Threat"] else []
  let p2 := if some "UEBA" ∈ engines ∧
      (some "Traffic Engine" ∈ engines ∨ some "Artifact Engine" ∈ engines) then
    ["INSIDER_THREAT: Suspicious User + Data Exfiltration"] else []
  let p3 := if some "IDS" ∈ engines ∧ some "Traffic Engine" ∈ engines then
    ["NETWORK_ATTACK: Intrusion Attempt + Anomalous Traffic"] else []
  let p4 := if 2 ≤ (alerts.filter (fun a => a.engine = some "Artifact Engine")).length then
    ["MALWARE_OUTBREAK: Multiple Malicious Files Detected"] else []
  let p5 := if 4 ≤ engines.length then
    ["MULTI_STAGE_ATTACK: Coordinated Attack Across Multiple Vectors"] else []
  p1 ++ p2 ++ p3 ++ p4 ++ p5

/-- self.memory: an insertion-ordered map entity → alert sequence. -/
def Mem : Type := List (String × List Alert)

instance : DecidableEq Mem := by unfold Mem; infer_instance

/-- dict lookup in memory. -/
def lookupMem : Mem → String → Option (List Alert)
  | [], _ => none
  | (k, v) :: r, e => if k = e then some v else lookupMem r e

/-- `self.memory[entity].append(alert)` on a defaultdict(list): update the
existing key in place, or insert the new key at the end. -/
def appendMem : Mem → String → Alert → Mem
  | [], e, a => [(e, [a])]
  | (k, v) :: r, e, a =>
    if k = e then (k, v ++ [a]) :: r else (k, v) :: appendMem r e a

/-- CorrelationBrain._clean_old_memory: keep only alerts with
now - timestamp < time_window, and delete entities left empty. -/
def cleanOldMemory (now window : Int) : Mem → Mem
  | [] => []
  | (k, v) :: r =>
    if v.filter (fun a => now - a.timestamp < window) = [] then
      cleanOldMemory now window r
    else (k, v.filter (fun a => now - a.timestamp < window)) :: cleanOldMemory now window r

/-- self.cooldowns: entity → last incident time. -/
def lookupCd : List (String × Int) → String → Option Int
  | [], _ => none
  | (k, v) :: r, e => if k = e then some v else lookupCd r e

/-- `self.cooldowns[entity] = now`. -/
def updateCd : List (String × Int) → String → Int → List (String × Int)
  | [], e, t => [(e, t)]
  | (k, v) :: r, e, t => if k = e then (k, t) :: r else (k, v) :: updateCd r e t

/-- The mutable state of a CorrelationBrain instance. -/
structure EngineState where
  memory : Mem := []
  cooldowns : List (String × Int) := []
  total_alerts_processed : Nat := 0
  incidents_generated : Nat := 0
  deriving DecidableEq

/-- Constructor parameters (threshold=60, time_window=900 by default). -/
structure Config where
  threshold : Nat := 60
  time_window : Int := 900
  deriving DecidableEq

def defaultConfig : Config := {}

/-- The incident record built on emission (the fixed outer fields
engine="CORRELATION BRAIN", severity="Critical",
alertType="Multi-Vector Attack Incident" are constants and omitted). -/
structure Incident where
  target_entity : String
  risk_score : Nat
  engines_involved : List String
  engine_count : Nat
  alert_count : Nat
  severity_breakdown : SevCounts
  attack_patterns : List String
  timeline : List String
  window_start : Int
  window_end : Int
  attack_duration : Int
  deriving DecidableEq

/-- One timeline line: `idx. [engine] alertType (severity)` with the source's
.get defaults. -/
def timelineLine (idx : Nat) (a : Alert) : String :=
  toString idx ++ ". [" ++ a.engine.getD "Unknown" ++ "] " ++
    a.alertType.getD "Unknown" ++ " (" ++ a.severity.getD "Low" ++ ")"

/-- The 1-indexed timeline over an entity's alert sequence. -/
def buildTimeline (l : List Alert) : List String :=
  (l.enumFrom 1).map (fun p => timelineLine p.1 p.2)

/-- min of the timestamps of a (nonempty in every use) alert sequence. -/
def minTs : List Alert → Int
  | [] => 0
  | a :: r => r.foldl (fun m x => min m x.timestamp) a.timestamp

/-- max of the timestamps of a (nonempty in every use) alert sequence. -/
def maxTs : List Alert → Int
  | [] => 0
  | a :: r => r.foldl (fun m x => max m x.timestamp) a.timestamp

/-- The incident dict assembled in ingest_alert on emission. -/
def buildIncident (entity : String) (l : List Alert) (score : Nat)
    (engines : List String) (cnts : SevCounts) : Incident :=
  { target_entity := entity
    risk_score := score
    engines_involved := engines
    engine_count := engines.length
    alert_count := l.length
    severity_breakdown := cnts
    attack_patterns := detectAttackPatterns l
    timeline := buildTimeline l
    window_start := minTs l
    window_end := maxTs l
    attack_duration := maxTs l - minTs l }

/-- The per-entity loop of ingest_alert: append the alert, score the entity's
history, and on threshold ∧ cooldown admission emit immediately (short
circuit); a KeyError propagates with the state mutated so far. -/
def correlateLoop (cfg : Config) (now : Int) (a' : Alert) :
    List String → EngineState → EngineState × Except Unit (Option Incident)
  | [], s => (s, .ok none)
  | e :: rest, s =>
    let m' := appendMem s.memory e a'
    let l := (lookupMem m' e).getD []
    match calcRiskScore l with
    | .error _ => ({ s with memory := m' }, .error ())
    | .ok (score, engines, cnts) =>
      let s1 := { s with memory := m' }
      if cfg.threshold ≤ score then
        let fire :=
          ({ s1 with
              cooldowns := updateCd s1.cooldowns e now
              incidents_generated := s1.incidents_generated + 1 },
           Except.ok (some (buildIncident e l score engines cnts)))
        match lookupCd s1.cooldowns e with
        | some t => if now - t < 60 then correlateLoop cfg now a' rest s1 else fire
        | none => fire
      else correlateLoop cfg now a' rest s1

/-- CorrelationBrain.ingest_alert: prune memory, count the alert, stamp the
arrival time, extract entities; with no entities return nothing, otherwise
run the per-entity correlation loop. -/
def ingestAlert (cfg : Config) (now : Int) (alert : Alert) (s : EngineState) :
    EngineState × Except Unit (Option Incident) :=
  let m1 := cleanOldMemory now cfg.time_window s.memory
  let s0 := { s with
    memory := m1
    total_alerts_processed := s.total_alerts_processed + 1 }
  let a' := { alert with timestamp := now }
  let entities := extractEntities a'
  if entities = [] then (s0, .ok none)
  else correlateLoop cfg now a' entities s0

/-! Specification-level views of the scorer, derived from the same source
code and proved to agree with calcRiskScore on inputs where it succeeds. -/

/-- The raw severity sum: base scores summed over the sequence. -/
def rawScore (l : List Alert) : Nat :=
  (l.map (fun a => severityBase a.sevD)).sum

/-- engines_involved accumulated in iteration order (set insertion order). -/
def enginesOf (l : List Alert) : List String :=
  l.foldl (fun acc x => if x.engD ∈ acc then acc else acc ++ [x.engD]) []

/-- The alert's (defaulted) severity is one of the four keys of the
severity-count dict, so counting it cannot raise. -/
def knownSeverity (a : Alert) : Prop :=
  a.sevD = "Critical" ∨ a.sevD = "High" ∨ a.sevD = "Medium" ∨ a.sevD = "Low"

instance (a : Alert) : Decidable (knownSeverity a) := by
  unfold knownSeverity; infer_instance

/-- The alert carries an explicit severity among the four tiers. -/
def carriesKnownSeverity (a : Alert) : Prop :=
  a.severity = some "Critical" ∨ a.severity = some "High" ∨
    a.severity = some "Medium" ∨ a.severity = some "Low"

instance (a : Alert) : Decidable (carriesKnownSeverity a) := by
  unfold carriesKnownSeverity; infer_instance

/-- The branch multiplier as a numerator over 2: ×1.0, ×1.5, ×2.0, ×2.5. -/
def multNum (n : Nat) : Nat :=
  if n = 2 then 3 else if n = 3 then 4 else if 4 ≤ n then 5 else 2

/-- The risk score component of _calculate_risk_score (0 if it raises;
only used on sequences where it succeeds). -/
def scoreOf (l : List Alert) : Nat :=
  match calcRiskScore l with
  | .ok (sc, _, _) => sc
  | .error _ => 0

/-- The CooldownGate: admit unless an incident for e fired less than 60s ago. -/
def cooldownAdmits (cds : List (String × Int)) (now : Int) (e : String) : Bool :=
  match lookupCd cds e with
  | some t => if now - t < 60 then false else true
  | none => true

/-- The alert sequence the loop evaluates for entity e: its (pruned) history
plus the newly stamped alert. -/
def entityList (m : Mem) (a' : Alert) (e : String) : List Alert :=
  (lookupMem m e).getD [] ++ [a']

/-- Entity e qualifies: its recomputed score meets the threshold and the
cooldown admits. -/
def qualifies (cfg : Config) (now : Int) (cds : List (String × Int)) (m : Mem)
    (a' : Alert) (e : String) : Bool :=
  decide (cfg.threshold ≤ scoreOf (entityList m a' e)) && cooldownAdmits cds now e

/-- Appending the alert for each entity in order. -/
def appendAll (m : Mem) (es : List String) (a' : Alert) : Mem :=
  es.foldl (fun acc e => appendMem acc e a') m

/-- Whether a call result is an incident emitted for entity E. -/
def emitsForB (E : String) : Except Unit (Option Incident) → Bool
  | .ok (some inc) => inc.target_entity == E
  | _ => false

/-- A sequence of ingest calls, returning the final state and the per-call
results in order. -/
def runCalls (cfg : Config) : EngineState → List (Int × Alert) →
    EngineState × List (Except Unit (Option Incident))
  | s, [] => (s, [])
  | s, (t, a) :: rest =>
    let r := ingestAlert cfg t a s
    let rr := runCalls cfg r.1 rest
    (rr.1, r.2 :: rr.2)

/-! Concrete alerts and states used as test vectors by individual results. -/

/-- An alert carrying only an engine name (enough for pattern detection). -/
def mkEngineAlert (e : String) : Alert := { engine := some e }

/-- Scenario alert A1: Artifact Engine, Critical, for IP 10.0.0.5. -/
def scA1 : Alert :=
  { engine := some "Artifact Engine"
    severity := some "Critical"
    alertType := some "Malware Detected"
    details := { source_ip := some "10.0.0.5" } }

/-- Scenario alert A2: Traffic Engine, Medium, for the same IP. -/
def scA2 : Alert :=
  { engine := some "Traffic Engine"
    severity := some "Medium"
    alertType := some "Anomalous Traffic"
    details := { source_ip := some "10.0.0.5" } }

/-- A malformed alert: severity outside the four tiers, carrying one IP. -/
def sevInfoAlert : Alert :=
  { engine := some "Traffic Engine"
    severity := some "Informational"
    details := { ip_address := some "10.0.0.1" } }

/-- An alert with no severity key at all (defaults to the Low tier). -/
def noSevAlert : Alert :=
  { engine := some "Traffic Engine"
    details := { ip_address := some "10.0.0.2" } }

/-- A malformed alert extracting two entities (an IP and a filename). -/
def badTwoEntityAlert : Alert :=
  { engine := some "Traffic Engine"
    severity := some "Informational"
    details := { ip_address := some "10.0.0.9"
                 filename := some "f.exe" } }

/-- An alert whose details carry none of the recognized entity fields. -/
def noEntityAlert : Alert :=
  { engine := some "IDS"
    severity := some "Low"
    details := {} }

/-- A state holding one entity whose only alert is far outside the window
at time 1000 (window 900). -/
def staleState : EngineState :=
  { memory := [("X", [{ timestamp := 0 }])] }

/-- Cooldown demo alerts: four Critical alerts for IP 10.1.1.1 from four
different engines. -/
def demoAlert (e : String) : Alert :=
  { engine := some e
    severity := some "Critical"
    details := { ip_address := some "10.1.1.1" } }

/-- The cooldown demo run: ingest at times 0, 1, 2 and 61. The second call
crosses the threshold and fires; the third is suppressed by the cooldown
although the score is higher; the fourth fires again at 60s distance from
the accumulated history. -/
def demoCalls : List (Int × Alert) :=
  [(0, demoAlert "Artifact Engine"), (1, demoAlert "Traffic Engine"),
   (2, demoAlert "IDS"), (61, demoAlert "UEBA")]

/-! Association list lemmas for the memory and cooldown maps. -/

theorem lookupMem_appendMem_self (m : Mem) (e : String) (a : Alert) :
    lookupMem (appendMem m e a) e = some ((lookupMem m e).getD [] ++ [a]) := by
  induction m with
  | nil => simp [appendMem, lookupMem]
  | cons kv r ih =>
    obtain ⟨k, v⟩ := kv
    by_cases hk : k = e
    · subst hk; simp [appendMem, lookupMem]
    · simp [appendMem, lookupMem, hk, ih]

theorem lookupMem_appendMem_ne (m : Mem) (e k : String) (a : Alert) (h : k ≠ e) :
    lookupMem (appendMem m e a) k = lookupMem m k := by
  induction m with
  | nil => simp [appendMem, lookupMem, Ne.symm h]
  | cons kv r ih =>
    obtain ⟨k', v⟩ := kv
    by_cases hk : k' = e
    · subst hk; simp [appendMem, lookupMem, Ne.symm h]
    · simp [appendMem, lookupMem, hk, ih]

theorem lookupCd_updateCd_self (c : List (String × Int)) (e : String) (t : Int) :
    lookupCd (updateCd c e t) e = some t := by
  induction c with
  | nil => simp [updateCd, lookupCd]
  | cons kv r ih =>
    obtain ⟨k, v⟩ := kv
    by_cases hk : k = e
    · subst hk; simp [updateCd, lookupCd]
    · simp [updateCd, lookupCd, hk, ih]

theorem lookupCd_updateCd_ne (c : List (String × Int)) (e k : String) (t : Int)
    (h : k ≠ e) : lookupCd (updateCd c e t) k = lookupCd c k := by
  induction c with
  | nil => simp [updateCd, lookupCd, Ne.symm h]
  | cons kv r ih =>
    obtain ⟨k', v⟩ := kv
    by_cases hk : k' = e
    · subst hk; simp [updateCd, lookupCd, Ne.symm h]
    · simp [updateCd, lookupCd, hk, ih]

/-! Pruning lemmas. -/

/-- After pruning, every surviving entity is nonempty and every surviving
alert is inside the window. -/
theorem lookupMem_cleanOldMemory (now w : Int) (m : Mem) (e : String)
    (l : List Alert) (h : lookupMem (cleanOldMemory now w m) e = some l) :
    l ≠ [] ∧ ∀ a ∈ l, now - a.timestamp < w := by
  induction m with
  | nil => simp [cleanOldMemory, lookupMem] at h
  | cons kv r ih =>
    obtain ⟨k, v⟩ := kv
    rw [cleanOldMemory] at h
    by_cases hv : v.filter (fun a => now - a.timestamp < w) = []
    · exact ih (by rwa [if_pos hv] at h)
    · rw [if_neg hv] at h
      by_cases hk : k = e
      · subst hk
        rw [lookupMem, if_pos rfl] at h
        rcases Option.some_inj.mp h with rfl
        refine ⟨hv, ?_⟩
        intro a ha
        have := List.mem_filter.mp ha
        simpa using this.2
      · exact ih (by rwa [lookupMem, if_neg hk] at h)

/-- Pruning twice at the same instant is the same as pruning once. -/
theorem cleanOldMemory_idem (now w : Int) (m : Mem) :
    cleanOldMemory now w (cleanOldMemory now w m) = cleanOldMemory now w m := by
  induction m with
  | nil => simp [cleanOldMemory]
  | cons kv r ih =>
    obtain ⟨k, v⟩ := kv
    simp only [cleanOldMemory]
    by_cases hv : v.filter (fun a => now - a.timestamp < w) = []
    · simpa [hv] using ih
    · have hff : (v.filter (fun a => now - a.timestamp < w)).filter
          (fun a => now - a.timestamp < w) = v.filter (fun a => now - a.timestamp < w) :=
        List.filter_eq_self.mpr (fun a ha => (List.mem_filter.mp ha).2)
      simp [cleanOldMemory, hv, hff, ih]

/-! Multiplier lemmas. -/

theorem applyMult_eq_multNum (n s : Nat) : applyMult n s = multNum n * s / 2 := by
  unfold applyMult multNum
  split_ifs <;> omega

theorem multNum_mono {n n' : Nat} (h : n ≤ n') : multNum n ≤ multNum n' := by
  unfold multNum
  split_ifs <;> omega

theorem applyMult_mono {n n' s s' : Nat} (hn : n ≤ n') (hs : s ≤ s') :
    applyMult n s ≤ applyMult n' s' := by
  rw [applyMult_eq_multNum, applyMult_eq_multNum]
  exact Nat.div_le_div_right (Nat.mul_le_mul (multNum_mono hn) hs)

/-! The calcLoop bridge: on sequences whose (defaulted) severities are among
the four dict keys, _calculate_risk_score succeeds and its score is the
multiplier applied to the raw severity sum. -/

theorem SevCounts.bump_isSome (c : SevCounts) (a : Alert) (h : knownSeverity a) :
    ∃ c', c.bump a.sevD = some c' := by
  rcases h with h | h | h | h <;> rw [h] <;> simp [SevCounts.bump]

theorem calcLoop_ok (l : List Alert) (hval : ∀ a ∈ l, knownSeverity a) :
    ∀ sc eng cnt, ∃ cnt', calcLoop l sc eng cnt =
      .ok (sc + rawScore l,
        l.foldl (fun acc x => if x.engD ∈ acc then acc else acc ++ [x.engD]) eng,
        cnt') := by
  induction l with
  | nil => intro sc eng cnt; exact ⟨cnt, by simp [calcLoop, rawScore]⟩
  | cons a rest ih =>
    intro sc eng cnt
    obtain ⟨cnt1, hb⟩ := SevCounts.bump_isSome cnt a (hval a (by simp))
    obtain ⟨cnt', hrest⟩ := ih (fun x hx => hval x (by simp [hx]))
      (sc + severityBase a.sevD)
      (if a.engD ∈ eng then eng else eng ++ [a.engD]) cnt1
    refine ⟨cnt', ?_⟩
    rw [calcLoop, hb]
    show calcLoop rest (sc + severityBase a.sevD)
      (if a.engD ∈ eng then eng else eng ++ [a.engD]) cnt1 = _
    rw [hrest]
    simp [rawScore]
    omega

theorem calcRiskScore_ok (l : List Alert) (hval : ∀ a ∈ l, knownSeverity a) :
    ∃ cnt, calcRiskScore l =
      .ok (applyMult (enginesOf l).length (rawScore l), enginesOf l, cnt) := by
  obtain ⟨cnt, h⟩ := calcLoop_ok l hval 0 [] {}
  exact ⟨cnt, by rw [calcRiskScore, h]; simp [enginesOf]⟩

/-- One step of the engines_involved set insertion never loses engines. -/
theorem enginesOf_snoc (l : List Alert) (a : Alert) :
    enginesOf (l ++ [a]) =
      (if a.engD ∈ enginesOf l then enginesOf l else enginesOf l ++ [a.engD]) := by
  unfold enginesOf
  rw [List.foldl_append]
  rfl

theorem enginesOf_length_snoc (l : List Alert) (a : Alert) :
    (enginesOf l).length ≤ (enginesOf (l ++ [a])).length := by
  rw [enginesOf_snoc]
  split <;> simp

theorem rawScore_snoc (l : List Alert) (a : Alert) :
    rawScore (l ++ [a]) = rawScore l + severityBase a.sevD := by
  simp [rawScore]

/-! Per-entity loop lemmas. -/

/-- Every alert reachable in memory after one append was already there or is
the appended alert. -/
theorem mem_from_append (m : Mem) (e0 : String) (a' : Alert) (e : String)
    (l : List Alert) (h : lookupMem (appendMem m e0 a') e = some l)
    (x : Alert) (hx : x ∈ l) :
    (∃ l0, lookupMem m e = some l0 ∧ x ∈ l0) ∨ x = a' := by
  by_cases he : e = e0
  · subst he
    rw [lookupMem_appendMem_self] at h
    rcases Option.some_inj.mp h with rfl
    rcases List.mem_append.mp hx with hx | hx
    · rcases hl0 : lookupMem m e with _ | l0
      · simp [hl0] at hx
      · exact Or.inl ⟨l0, rfl, by simpa [hl0] using hx⟩
    · exact Or.inr (by simpa using hx)
  · rw [lookupMem_appendMem_ne m e0 e a' he] at h
    exact Or.inl ⟨l, h, hx⟩

/-- Every alert reachable in memory after the correlation loop was already
there before the loop or is the newly stamped alert. -/
theorem correlateLoop_mem_from (cfg : Config) (now : Int) (a' : Alert) :
    ∀ (es : List String) (s : EngineState) (e : String) (l : List Alert),
      lookupMem (correlateLoop cfg now a' es s).1.memory e = some l →
      ∀ x ∈ l, (∃ l0, lookupMem s.memory e = some l0 ∧ x ∈ l0) ∨ x = a' := by
  intro es
  induction es with
  | nil => intro s e l h x hx; exact Or.inl ⟨l, h, hx⟩
  | cons e0 rest ih =>
    intro s e l h x hx
    rw [correlateLoop] at h
    rcases hcalc : calcRiskScore ((lookupMem (appendMem s.memory e0 a') e0).getD []) with u | res
    · rw [hcalc] at h
      dsimp only at h
      exact mem_from_append s.memory e0 a' e l h x hx
    · rw [hcalc] at h
      obtain ⟨score, engines, cnts⟩ := res
      dsimp only at h
      by_cases hth : cfg.threshold ≤ score
      · rw [if_pos hth] at h
        rcases hcd : lookupCd s.cooldowns e0 with _ | t
        · simp only [hcd] at h
          exact mem_from_append s.memory e0 a' e l h x hx
        · simp only [hcd] at h
          by_cases hlt : now - t < 60
          · rw [if_pos hlt] at h
            have := ih _ e l h x hx
            rcases this with ⟨l0, hl0, hxl0⟩ | hx'
            · exact mem_from_append s.memory e0 a' e l0 hl0 x hxl0
            · exact Or.inr hx'
          · rw [if_neg hlt] at h
            exact mem_from_append s.memory e0 a' e l h x hx
      · rw [if_neg hth] at h
        have := ih _ e l h x hx
        rcases this with ⟨l0, hl0, hxl0⟩ | hx'
        · exact mem_from_append s.memory e0 a' e l0 hl0 x hxl0
        · exact Or.inr hx'

theorem emitsForB_true {E : String} {r : Except Unit (Option Incident)}
    (h : emitsForB E r = true) :
    ∃ inc, r = .ok (some inc) ∧ inc.target_entity = E := by
  match r with
  | .ok (some inc) =>
    refine ⟨inc, rfl, ?_⟩
    simpa [emitsForB] using h
  | .ok none => simp [emitsForB] at h
  | .error u => simp [emitsForB] at h

/-- While entity E's cooldown is active (now - t < 60), the correlation loop
never emits an incident for E and leaves its cooldown entry untouched. -/
theorem correlateLoop_blocked (cfg : Config) (now : Int) (a' : Alert)
    (E : String) (t : Int) (hlt : now - t < 60) :
    ∀ (es : List String) (s : EngineState),
      lookupCd s.cooldowns E = some t →
      emitsForB E (correlateLoop cfg now a' es s).2 = false ∧
      lookupCd (correlateLoop cfg now a' es s).1.cooldowns E = some t := by
  intro es
  induction es with
  | nil => intro s hcd; exact ⟨rfl, hcd⟩
  | cons e0 rest ih =>
    intro s hcd
    rw [correlateLoop]
    rcases hcalc : calcRiskScore ((lookupMem (appendMem s.memory e0 a') e0).getD []) with u | res
    · exact ⟨rfl, hcd⟩
    · obtain ⟨score, engines, cnts⟩ := res
      dsimp only
      by_cases hth : cfg.threshold ≤ score
      · rw [if_pos hth]
        rcases hcd0 : lookupCd s.cooldowns e0 with _ | t0
        · have hne : E ≠ e0 := fun h => by rw [h, hcd0] at hcd; exact Option.noConfusion hcd
          simp only [hcd0]
          refine ⟨?_, ?_⟩
          · simp [emitsForB, buildIncident, Ne.symm hne]
          · simpa [lookupCd_updateCd_ne _ e0 E now hne] using hcd
        · simp only [hcd0]
          by_cases hlt0 : now - t0 < 60
          · rw [if_pos hlt0]
            exact ih _ hcd
          · have hne : E ≠ e0 := by
              intro h
              rw [h, hcd0] at hcd
              rcases Option.some_inj.mp hcd with rfl
              exact hlt0 hlt
            rw [if_neg hlt0]
            refine ⟨?_, ?_⟩
            · simp [emitsForB, buildIncident, Ne.symm hne]
            · simpa [lookupCd_updateCd_ne _ e0 E now hne] using hcd
      · rw [if_neg hth]
        exact ih _ hcd

/-- When the loop emits an incident, the target entity's cooldown entry is
stamped with the current time. -/
theorem correlateLoop_fire_cd (cfg : Config) (now : Int) (a' : Alert) :
    ∀ (es : List String) (s : EngineState) (inc : Incident),
      (correlateLoop cfg now a' es s).2 = .ok (some inc) →
      lookupCd (correlateLoop cfg now a' es s).1.cooldowns inc.target_entity = some now := by
  intro es
  induction es with
  | nil => intro s inc h; simp [correlateLoop] at h
  | cons e0 rest ih =>
    intro s inc h
    rw [correlateLoop] at h ⊢
    rcases hcalc : calcRiskScore ((lookupMem (appendMem s.memory e0 a') e0).getD []) with u | res
    · simp only [hcalc] at h
      simp at h
    · simp only [hcalc] at h ⊢
      obtain ⟨score, engines, cnts⟩ := res
      dsimp only at h ⊢
      by_cases hth : cfg.threshold ≤ score
      · rw [if_pos hth] at h ⊢
        rcases hcd0 : lookupCd s.cooldowns e0 with _ | t0
        · simp only [hcd0] at h ⊢
          rcases Option.some_inj.mp (Except.ok.inj h) with rfl
          simpa [buildIncident] using lookupCd_updateCd_self _ e0 now
        · simp only [hcd0] at h ⊢
          by_cases hlt0 : now - t0 < 60
          · rw [if_pos hlt0] at h ⊢
            exact ih _ inc h
          · rw [if_neg hlt0] at h ⊢
            rcases Option.some_inj.mp (Except.ok.inj h) with rfl
            simpa [buildIncident] using lookupCd_updateCd_self _ e0 now
      · rw [if_neg hth] at h ⊢
        exact ih _ inc h

/-- ingest never emits for E and preserves E's cooldown entry while the
cooldown is active. -/
theorem ingestAlert_blocked (cfg : Config) (now : Int) (a : Alert)
    (s : EngineState) (E : String) (t : Int) (hlt : now - t < 60)
    (hcd : lookupCd s.cooldowns E = some t) :
    emitsForB E (ingestAlert cfg now a s).2 = false ∧
    lookupCd (ingestAlert cfg now a s).1.cooldowns E = some t := by
  rw [ingestAlert]
  by_cases hent : extractEntities { a with timestamp := now } = []
  · rw [if_pos hent]
    exact ⟨rfl, hcd⟩
  · rw [if_neg hent]
    exact correlateLoop_blocked cfg now _ E t hlt _ _ hcd

/-- When ingest emits an incident, the target's cooldown entry holds the
ingestion time. -/
theorem ingestAlert_fire_cd (cfg : Config) (now : Int) (a : Alert)
    (s : EngineState) (inc : Incident)
    (h : (ingestAlert cfg now a s).2 = .ok (some inc)) :
    lookupCd (ingestAlert cfg now a s).1.cooldowns inc.target_entity = some now := by
  rw [ingestAlert] at h ⊢
  by_cases hent : extractEntities { a with timestamp := now } = []
  · rw [if_pos hent] at h
    simp at h
  · rw [if_neg hent] at h ⊢
    exact correlateLoop_fire_cd cfg now _ _ _ inc h

/-- While E's cooldown entry reads T, calls strictly before T + 60 never
emit for E. -/
theorem runCalls_no_emit (cfg : Config) (E : String) (T : Int) :
    ∀ (calls : List (Int × Alert)) (s : EngineState),
      lookupCd s.cooldowns E = some T →
      (∀ c ∈ calls, c.1 < T + 60) →
      ∀ r ∈ (runCalls cfg s calls).2, emitsForB E r = false := by
  intro calls
  induction calls with
  | nil => intro s hcd htimes r hr; simp [runCalls] at hr
  | cons c rest ih =>
    intro s hcd htimes r hr
    obtain ⟨t, a⟩ := c
    have hlt : t - T < 60 := by
      have := htimes (t, a) (by simp)
      omega
    obtain ⟨hemit, hcd'⟩ := ingestAlert_blocked cfg t a s E T hlt hcd
    rw [runCalls] at hr
    rcases List.mem_cons.mp hr with rfl | hr
    · exact hemit
    · exact ih _ hcd' (fun c hc => htimes c (by simp [hc])) r hr

/-! Qualification lemmas. -/

theorem scoreOf_eq_of_ok {l : List Alert} {sc : Nat} {eng : List String}
    {cnt : SevCounts} (h : calcRiskScore l = .ok (sc, eng, cnt)) :
    scoreOf l = sc := by
  simp [scoreOf, h]

theorem entityList_append_ne (m : Mem) (e0 e : String) (a' b : Alert)
    (h : e ≠ e0) : entityList (appendMem m e0 b) a' e = entityList m a' e := by
  unfold entityList
  rw [lookupMem_appendMem_ne m e0 e b h]

theorem qualifies_append_ne (cfg : Config) (now : Int) (cds : List (String × Int))
    (m : Mem) (e0 e : String) (a' b : Alert) (h : e ≠ e0) :
    qualifies cfg now cds (appendMem m e0 b) a' e = qualifies cfg now cds m a' e := by
  unfold qualifies
  rw [entityList_append_ne m e0 e a' b h]

/-- A non-qualifying head entity is appended and skipped. -/
theorem correlateLoop_skip (cfg : Config) (now : Int) (a' : Alert) (e0 : String)
    (rest : List String) (s : EngineState)
    (hval : ∀ x ∈ entityList s.memory a' e0, knownSeverity x)
    (hq : qualifies cfg now s.cooldowns s.memory a' e0 = false) :
    correlateLoop cfg now a' (e0 :: rest) s =
      correlateLoop cfg now a' rest { s with memory := appendMem s.memory e0 a' } := by
  obtain ⟨cnt, hcalc⟩ := calcRiskScore_ok (entityList s.memory a' e0) hval
  have hsc := scoreOf_eq_of_ok hcalc
  rw [correlateLoop]
  have hl : (lookupMem (appendMem s.memory e0 a') e0).getD [] = entityList s.memory a' e0 := by
    rw [lookupMem_appendMem_self]
    rfl
  rw [hl, hcalc]
  dsimp only
  by_cases hth : cfg.threshold ≤ applyMult (enginesOf (entityList s.memory a' e0)).length
      (rawScore (entityList s.memory a' e0))
  · rw [if_pos hth]
    have hadm : cooldownAdmits s.cooldowns now e0 = false := by
      rcases Bool.and_eq_false_iff.mp hq with hq1 | hq2
      · exact absurd hth (by simpa [hsc] using hq1)
      · exact hq2
    unfold cooldownAdmits at hadm
    rcases hcd0 : lookupCd s.cooldowns e0 with _ | t0
    · rw [hcd0] at hadm
      simp at hadm
    · rw [hcd0] at hadm
      dsimp only at hadm
      simp only [hcd0]
      by_cases hlt0 : now - t0 < 60
      · rw [if_pos hlt0]
      · rw [if_neg hlt0] at hadm
        simp at hadm
  · rw [if_neg hth]

/-- A qualifying head entity fires immediately, with the incident built from
its appended history. -/
theorem correlateLoop_fire (cfg : Config) (now : Int) (a' : Alert) (e0 : String)
    (rest : List String) (s : EngineState)
    (hval : ∀ x ∈ entityList s.memory a' e0, knownSeverity x)
    (hq : qualifies cfg now s.cooldowns s.memory a' e0 = true) :
    ∃ cnt, correlateLoop cfg now a' (e0 :: rest) s =
      ({ s with
          memory := appendMem s.memory e0 a'
          cooldowns := updateCd s.cooldowns e0 now
          incidents_generated := s.incidents_generated + 1 },
       .ok (some (buildIncident e0 (entityList s.memory a' e0)
         (scoreOf (entityList s.memory a' e0))
         (enginesOf (entityList s.memory a' e0)) cnt))) := by
  obtain ⟨cnt, hcalc⟩ := calcRiskScore_ok (entityList s.memory a' e0) hval
  have hsc := scoreOf_eq_of_ok hcalc
  obtain ⟨hq1, hq2⟩ := Bool.and_eq_true_iff.mp hq
  have hth : cfg.threshold ≤ applyMult (enginesOf (entityList s.memory a' e0)).length
      (rawScore (entityList s.memory a' e0)) := by
    have := of_decide_eq_true hq1
    rwa [hsc] at this
  refine ⟨cnt, ?_⟩
  rw [correlateLoop]
  have hl : (lookupMem (appendMem s.memory e0 a') e0).getD [] = entityList s.memory a' e0 := by
    rw [lookupMem_appendMem_self]
    rfl
  rw [hl, hcalc]
  dsimp only
  rw [if_pos hth]
  unfold cooldownAdmits at hq2
  rcases hcd0 : lookupCd s.cooldowns e0 with _ | t0
  · simp only [hcd0]
    rw [hsc]
  · rw [hcd0] at hq2
    dsimp only at hq2
    simp only [hcd0]
    by_cases hlt0 : now - t0 < 60
    · rw [if_pos hlt0] at hq2
      simp at hq2
    · rw [if_neg hlt0]
      rw [hsc]

/-- If no listed entity qualifies, the loop appends the alert for all of them
and reports no incident. -/
theorem correlateLoop_none (cfg : Config) (now : Int) (a' : Alert) :
    ∀ (es : List String) (s : EngineState), es.Nodup →
      (∀ e ∈ es, ∀ x ∈ entityList s.memory a' e, knownSeverity x) →
      (∀ e ∈ es, qualifies cfg now s.cooldowns s.memory a' e = false) →
      correlateLoop cfg now a' es s =
        ({ s with memory := appendAll s.memory es a' }, .ok none) := by
  intro es
  induction es with
  | nil =>
    intro s _ _ _
    show (s, Except.ok none) = _
    have : appendAll s.memory [] a' = s.memory := rfl
    rw [this]
  | cons e0 rest ih =>
    intro s hnd hval hq
    have he0 : e0 ∉ rest := (List.nodup_cons.mp hnd).1
    rw [correlateLoop_skip cfg now a' e0 rest s (hval e0 (by simp)) (hq e0 (by simp))]
    rw [ih _ (List.nodup_cons.mp hnd).2 ?_ ?_]
    · rfl
    · intro e he x hx
      have hne : e ≠ e0 := fun h => he0 (h ▸ he)
      rw [entityList_append_ne s.memory e0 e a' a' hne] at hx
      exact hval e (by simp [he]) x hx
    · intro e he
      have hne : e ≠ e0 := fun h => he0 (h ▸ he)
      show qualifies cfg now s.cooldowns (appendMem s.memory e0 a') a' e = false
      rw [qualifies_append_ne cfg now s.cooldowns s.memory e0 e a' a' hne]
      exact hq e (by simp [he])

/-- The first qualifying entity in iteration order wins: the alert is
appended only for the preceding entities and the winner, the incident is
built from the winner's history, and later entities are untouched. -/
theorem correlateLoop_first (cfg : Config) (now : Int) (a' : Alert) :
    ∀ (pre : List String) (e0 : String) (post : List String) (s : EngineState),
      (pre ++ e0 :: post).Nodup →
      (∀ e ∈ pre ++ e0 :: post, ∀ x ∈ entityList s.memory a' e, knownSeverity x) →
      (∀ e ∈ pre, qualifies cfg now s.cooldowns s.memory a' e = false) →
      qualifies cfg now s.cooldowns s.memory a' e0 = true →
      ∃ cnt, correlateLoop cfg now a' (pre ++ e0 :: post) s =
        ({ s with
            memory := appendMem (appendAll s.memory pre a') e0 a'
            cooldowns := updateCd s.cooldowns e0 now
            incidents_generated := s.incidents_generated + 1 },
         .ok (some (buildIncident e0 (entityList s.memory a' e0)
           (scoreOf (entityList s.memory a' e0))
           (enginesOf (entityList s.memory a' e0)) cnt))) := by
  intro pre
  induction pre with
  | nil =>
    intro e0 post s _ hval _ hq0
    simpa [appendAll] using correlateLoop_fire cfg now a' e0 post s (hval e0 (by simp)) hq0
  | cons p pre' ih =>
    intro e0 post s hnd hval hqpre hq0
    have hp : p ∉ pre' ++ e0 :: post := (List.nodup_cons.mp (by simpa using hnd)).1
    have hpe0 : e0 ≠ p := fun h => hp (by simp [h])
    rw [List.cons_append, correlateLoop_skip cfg now a' p (pre' ++ e0 :: post) s
      (hval p (by simp)) (hqpre p (by simp))]
    have hval' : ∀ e ∈ pre' ++ e0 :: post,
        ∀ x ∈ entityList (appendMem s.memory p a') a' e, knownSeverity x := by
      intro e he x hx
      have hne : e ≠ p := fun h => hp (h ▸ he)
      rw [entityList_append_ne s.memory p e a' a' hne] at hx
      exact hval e (by simp [he]) x hx
    have hqpre' : ∀ e ∈ pre',
        qualifies cfg now s.cooldowns (appendMem s.memory p a') a' e = false := by
      intro e he
      have hne : e ≠ p := fun h => hp (h ▸ (by simp [he] : e ∈ pre' ++ e0 :: post))
      rw [qualifies_append_ne cfg now s.cooldowns s.memory p e a' a' hne]
      exact hqpre e (by simp [he])
    have hq0' : qualifies cfg now s.cooldowns (appendMem s.memory p a') a' e0 = true := by
      rw [qualifies_append_ne cfg now s.cooldowns s.memory p e0 a' a' hpe0]
      exact hq0
    obtain ⟨cnt, hrec⟩ := ih e0 post { s with memory := appendMem s.memory p a' }
      ((List.nodup_cons.mp (by simpa using hnd)).2) hval' hqpre' hq0'
    refine ⟨cnt, ?_⟩
    rw [hrec]
    rw [entityList_append_ne s.memory p e0 a' a' hpe0]
    rfl

/-! Remaining support lemmas. -/

theorem dedup_aux_nodup {α : Type} [DecidableEq α] (l : List α) :
    ∀ acc : List α, acc.Nodup →
      (l.foldl (fun acc x => if x ∈ acc then acc else acc ++ [x]) acc).Nodup := by
  induction l with
  | nil => intro acc h; exact h
  | cons x rest ih =>
    intro acc h
    rw [List.foldl_cons]
    by_cases hx : x ∈ acc
    · rw [if_pos hx]
      exact ih acc h
    · rw [if_neg hx]
      refine ih _ ?_
      rw [List.nodup_append]
      exact ⟨h, List.nodup_singleton x, fun a ha hax => hx (by
        rcases List.mem_singleton.mp hax with rfl
        exact ha)⟩

theorem dedup_nodup {α : Type} [DecidableEq α] (l : List α) : (dedup l).Nodup :=
  dedup_aux_nodup l [] List.nodup_nil

theorem extractEntities_nodup (a : Alert) : (extractEntities a).Nodup := by
  unfold extractEntities
  exact dedup_nodup _

/-- Extraction ignores the timestamp field. -/
theorem extractEntities_set_timestamp (a : Alert) (t : Int) :
    extractEntities { a with timestamp := t } = extractEntities a := rfl

theorem knownSeverity_of_carries (a : Alert) (h : carriesKnownSeverity a) :
    knownSeverity a := by
  rcases h with h | h | h | h <;>
    simp [knownSeverity, Alert.sevD, h]

theorem lookupMem_appendAll_not_mem (a' : Alert) :
    ∀ (es : List String) (m : Mem) (e : String), e ∉ es →
      lookupMem (appendAll m es a') e = lookupMem m e := by
  intro es
  induction es with
  | nil => intro m e _; rfl
  | cons e0 rest ih =>
    intro m e he
    have h1 : e ≠ e0 := fun h => he (by simp [h])
    have h2 : e ∉ rest := fun h => he (by simp [h])
    show lookupMem (appendAll (appendMem m e0 a') rest a') e = _
    rw [ih _ e h2, lookupMem_appendMem_ne m e0 e a' h1]

/-! Claim results. -/

/-- C1: the claim states ingest_alert never raises and that an unknown or
missing severity is scored as the Low tier. A missing severity is indeed
defaulted to Low and processed without error (first conjunct), but an alert
carrying an unrecognized severity value makes ingest_alert raise KeyError:
severity_counts is initialized with only the four tier keys and
severity_counts[severity] += 1 is reached before the else-branch that scores
unknown severities as 5. The spec (and the scorer's own catch-all branch)
clearly intend unknown severities to be tolerated, so this is recorded as a
bug in the code. -/
theorem C1_unknown_severity_keyerror :
    (ingestAlert defaultConfig 0 noSevAlert {}).2 = Except.ok none ∧
    (ingestAlert defaultConfig 0 sevInfoAlert {}).2 = Except.error () :=
  ⟨rfl, rfl⟩

/-- C2 counterexample: the claim quantifies over every alert sequence, with
"otherwise 5" for severities outside Critical/High/Medium. But on a
single-alert sequence with severity "Informational" (raw sum 5 per the
claim, one engine, so the claimed score is 5) _calculate_risk_score raises
KeyError instead of returning a score. -/
theorem C2_multiplier_cx :
    calcRiskScore [sevInfoAlert] = Except.error () ∧
    severityBase sevInfoAlert.sevD = 5 :=
  ⟨rfl, rfl⟩

/-- C2 amended: restricted to sequences in which every alert's defaulted
severity is one of the four tier keys (absent severities default to Low),
_calculate_risk_score returns exactly the multiplier table applied to the
raw severity sum S: S at 1 distinct engine, floor(S*1.5) = 3*S/2 at 2,
floor(S*2.0) = 2*S at 3, floor(S*2.5) = 5*S/2 at 4 or more, where Nat
division by 2 is the truncation toward zero of the claim (the score is
non-negative, so truncation and floor coincide). -/
theorem C2_multiplier_table (alerts : List Alert)
    (hval : ∀ a ∈ alerts, knownSeverity a) :
    ∃ cnt, calcRiskScore alerts =
      .ok (applyMult (enginesOf alerts).length (rawScore alerts), enginesOf alerts, cnt) ∧
      ((enginesOf alerts).length = 1 →
        applyMult (enginesOf alerts).length (rawScore alerts) = rawScore alerts) ∧
      ((enginesOf alerts).length = 2 →
        applyMult (enginesOf alerts).length (rawScore alerts) = 3 * rawScore alerts / 2) ∧
      ((enginesOf alerts).length = 3 →
        applyMult (enginesOf alerts).length (rawScore alerts) = 2 * rawScore alerts) ∧
      (4 ≤ (enginesOf alerts).length →
        applyMult (enginesOf alerts).length (rawScore alerts) = 5 * rawScore alerts / 2) := by
  obtain ⟨cnt, hcalc⟩ := calcRiskScore_ok alerts hval
  refine ⟨cnt, hcalc, ?_, ?_, ?_, ?_⟩
  · intro h
    rw [h]
    simp [applyMult]
  · intro h
    rw [h]
    simp [applyMult]
  · intro h
    rw [h]
    simp [applyMult]
  · intro h
    unfold applyMult
    rw [if_neg (by omega), if_neg (by omega), if_pos h]

/-- C2 witness: the amended theorem applied to the two-engine scenario pair,
where the hypothesis holds by computation. -/
theorem C2_multiplier_table_witness :
    ∃ cnt, calcRiskScore [scA1, scA2] =
      .ok (applyMult (enginesOf [scA1, scA2]).length (rawScore [scA1, scA2]),
        enginesOf [scA1, scA2], cnt) ∧
      ((enginesOf [scA1, scA2]).length = 1 →
        applyMult (enginesOf [scA1, scA2]).length (rawScore [scA1, scA2]) =
          rawScore [scA1, scA2]) ∧
      ((enginesOf [scA1, scA2]).length = 2 →
        applyMult (enginesOf [scA1, scA2]).length (rawScore [scA1, scA2]) =
          3 * rawScore [scA1, scA2] / 2) ∧
      ((enginesOf [scA1, scA2]).length = 3 →
        applyMult (enginesOf [scA1, scA2]).length (rawScore [scA1, scA2]) =
          2 * rawScore [scA1, scA2]) ∧
      (4 ≤ (enginesOf [scA1, scA2]).length →
        applyMult (enginesOf [scA1, scA2]).length (rawScore [scA1, scA2]) =
          5 * rawScore [scA1, scA2] / 2) :=
  C2_multiplier_table [scA1, scA2] (by decide)

/-- C8: each of the five pattern rules fires in isolation on a suitable
alert sequence: three singleton-engine alerts for APT_CHAIN; UEBA plus
Artifact for INSIDER_THREAT; IDS plus Traffic for NETWORK_ATTACK; two
Artifact alerts for MALWARE_OUTBREAK; and four alerts from four engine
names matching no named rule for MULTI_STAGE_ATTACK. -/
theorem C8_pattern_isolation :
    detectAttackPatterns [mkEngineAlert "Artifact Engine", mkEngineAlert "Traffic Engine",
        mkEngineAlert "Threat Intelligence"] =
      ["APT_CHAIN: Malware → C2 Communication → Known Threat"] ∧
    detectAttackPatterns [mkEngineAlert "UEBA", mkEngineAlert "Artifact Engine"] =
      ["INSIDER_THREAT: Suspicious User + Data Exfiltration"] ∧
    detectAttackPatterns [mkEngineAlert "IDS", mkEngineAlert "Traffic Engine"] =
      ["NETWORK_ATTACK: Intrusion Attempt + Anomalous Traffic"] ∧
    detectAttackPatterns [mkEngineAlert "Artifact Engine", mkEngineAlert "Artifact Engine"] =
      ["MALWARE_OUTBREAK: Multiple Malicious Files Detected"] ∧
    detectAttackPatterns [mkEngineAlert "Engine A", mkEngineAlert "Engine B",
        mkEngineAlert "Engine C", mkEngineAlert "Engine D"] =
      ["MULTI_STAGE_ATTACK: Coordinated Attack Across Multiple Vectors"] :=
  ⟨rfl, rfl, rfl, rfl, rfl⟩

/-- C10: appending an alert whose severity is one of the four tiers to a
sequence of such alerts never decreases the risk score: the raw sum grows
by the new base score and the distinct-engine multiplier is non-decreasing
in both the engine count and the sum. -/
theorem C10_score_monotone (l : List Alert) (a : Alert)
    (hl : ∀ x ∈ l, carriesKnownSeverity x) (ha : carriesKnownSeverity a) :
    ∃ r r', calcRiskScore l = .ok r ∧ calcRiskScore (l ++ [a]) = .ok r' ∧
      r.1 ≤ r'.1 := by
  obtain ⟨cnt, hcalc⟩ := calcRiskScore_ok l
    (fun x hx => knownSeverity_of_carries x (hl x hx))
  have hval' : ∀ x ∈ l ++ [a], knownSeverity x := by
    intro x hx
    rcases List.mem_append.mp hx with hx | hx
    · exact knownSeverity_of_carries x (hl x hx)
    · rcases List.mem_singleton.mp hx with rfl
      exact knownSeverity_of_carries x ha
  obtain ⟨cnt', hcalc'⟩ := calcRiskScore_ok (l ++ [a]) hval'
  refine ⟨_, _, hcalc, hcalc', ?_⟩
  show applyMult (enginesOf l).length (rawScore l) ≤
    applyMult (enginesOf (l ++ [a])).length (rawScore (l ++ [a]))
  refine applyMult_mono (enginesOf_length_snoc l a) ?_
  rw [rawScore_snoc]
  omega

/-- C10 witness: the monotonicity theorem at the concrete scenario pair with
a third Critical alert appended. -/
theorem C10_score_monotone_witness :
    ∃ r r', calcRiskScore [scA1, scA2] = .ok r ∧
      calcRiskScore ([scA1, scA2] ++ [demoAlert "IDS"]) = .ok r' ∧ r.1 ≤ r'.1 :=
  C10_score_monotone [scA1, scA2] (demoAlert "IDS") (by decide) (by decide)

/-- C6 counterexample: the claim says an entity-less alert leaves the memory
store completely unchanged, but ingest_alert prunes expired alerts first on
every call: on a state holding one stale entity, ingesting an alert with no
entity fields at time 1000 (window 900) empties the memory. -/
theorem C6_memory_pruned_cx :
    extractEntities { noEntityAlert with timestamp := 1000 } = [] ∧
    staleState.memory ≠ [] ∧
    (ingestAlert defaultConfig 1000 noEntityAlert staleState).1.memory = [] ∧
    (ingestAlert defaultConfig 1000 noEntityAlert staleState).2 = Except.ok none := by
  refine ⟨rfl, ?_, rfl, rfl⟩
  simp [staleState]

/-- C6 amended: an alert extracting no entities is counted in
total_alerts_processed, returns no incident, and leaves memory unchanged
except for the expiry pruning every call performs first; in particular the
alert itself is never stored and cooldowns and the incident counter are
untouched. -/
theorem C6_no_entity_alert (cfg : Config) (now : Int) (a : Alert)
    (s : EngineState) (h : extractEntities a = []) :
    ingestAlert cfg now a s =
      ({ s with
          memory := cleanOldMemory now cfg.time_window s.memory
          total_alerts_processed := s.total_alerts_processed + 1 },
       .ok none) := by
  have h' : extractEntities { a with timestamp := now } = [] := by
    rw [extractEntities_set_timestamp]
    exact h
  rw [ingestAlert, if_pos h']

/-- C6 witness: the amended theorem at the concrete stale state. -/
theorem C6_no_entity_alert_witness :
    ingestAlert defaultConfig 1000 noEntityAlert staleState =
      ({ staleState with
          memory := cleanOldMemory 1000 defaultConfig.time_window staleState.memory
          total_alerts_processed := staleState.total_alerts_processed + 1 },
       .ok none) :=
  C6_no_entity_alert defaultConfig 1000 noEntityAlert staleState (by decide)

/-- C9: the engine stamps the arrival time itself. A caller-supplied
timestamp value is overwritten before any use, so it has no effect on the
call at all (first conjunct), and every alert found in memory after the call
either was already in the pruned store or is the ingested alert carrying
timestamp = now (second conjunct). -/
theorem C9_timestamp_assigned (cfg : Config) (now : Int) (a : Alert)
    (s : EngineState) (t : Int) :
    ingestAlert cfg now { a with timestamp := t } s = ingestAlert cfg now a s ∧
    (∀ e l x, lookupMem (ingestAlert cfg now a s).1.memory e = some l → x ∈ l →
      (∃ l0, lookupMem (cleanOldMemory now cfg.time_window s.memory) e = some l0 ∧ x ∈ l0) ∨
      x.timestamp = now) := by
  constructor
  · rfl
  · intro e l x h hx
    rw [ingestAlert] at h
    by_cases hent : extractEntities { a with timestamp := now } = []
    · rw [if_pos hent] at h
      exact Or.inl ⟨l, h, hx⟩
    · rw [if_neg hent] at h
      have := correlateLoop_mem_from cfg now { a with timestamp := now } _ _ e l h x hx
      rcases this with ⟨l0, hl0, hxl0⟩ | rfl
      · exact Or.inl ⟨l0, hl0, hxl0⟩
      · exact Or.inr rfl

/-- C4: pruning runs first on every call. After pruning, every surviving
entity is nonempty and all its alerts satisfy now - timestamp < time_window
(first conjunct); the whole call behaves exactly as if run on the pruned
store, so expired alerts contribute to no score computed in the call (second
conjunct); and every alert reachable in memory after the call satisfies the
window bound, the fresh alert included (third conjunct, needing a positive
window). -/
theorem C4_pruning_window (cfg : Config) (now : Int) (a : Alert)
    (s : EngineState) (hw : 0 < cfg.time_window) :
    (∀ e l, lookupMem (cleanOldMemory now cfg.time_window s.memory) e = some l →
      l ≠ [] ∧ ∀ x ∈ l, now - x.timestamp < cfg.time_window) ∧
    ingestAlert cfg now a s =
      ingestAlert cfg now a { s with memory := cleanOldMemory now cfg.time_window s.memory } ∧
    (∀ e l, lookupMem (ingestAlert cfg now a s).1.memory e = some l →
      ∀ x ∈ l, now - x.timestamp < cfg.time_window) := by
  refine ⟨fun e l h => lookupMem_cleanOldMemory now cfg.time_window s.memory e l h, ?_, ?_⟩
  · simp only [ingestAlert, cleanOldMemory_idem]
  · intro e l h x hx
    rw [ingestAlert] at h
    by_cases hent : extractEntities { a with timestamp := now } = []
    · rw [if_pos hent] at h
      exact (lookupMem_cleanOldMemory now cfg.time_window s.memory e l h).2 x hx
    · rw [if_neg hent] at h
      have := correlateLoop_mem_from cfg now { a with timestamp := now } _ _ e l h x hx
      rcases this with ⟨l0, hl0, hxl0⟩ | rfl
      · exact (lookupMem_cleanOldMemory now cfg.time_window s.memory e l0 hl0).2 x hxl0
      · show now - now < cfg.time_window
        omega

/-- C4 witness: the pruning theorem at the concrete stale state and window
900 at time 1000. -/
theorem C4_pruning_window_witness :
    (∀ e l, lookupMem (cleanOldMemory 1000 defaultConfig.time_window staleState.memory) e = some l →
      l ≠ [] ∧ ∀ x ∈ l, (1000 : Int) - x.timestamp < defaultConfig.time_window) ∧
    ingestAlert defaultConfig 1000 scA1 staleState =
      ingestAlert defaultConfig 1000 scA1
        { staleState with memory := cleanOldMemory 1000 defaultConfig.time_window staleState.memory } ∧
    (∀ e l, lookupMem (ingestAlert defaultConfig 1000 scA1 staleState).1.memory e = some l →
      ∀ x ∈ l, (1000 : Int) - x.timestamp < defaultConfig.time_window) :=
  C4_pruning_window defaultConfig 1000 scA1 staleState (by decide)

/-- C3: cooldown suppression. If a call at time T emits an incident for
entity E, then no call occurring before T + 60 emits another incident for E,
no matter how many alerts arrive or how high E's score climbs (first
conjunct: quantified over every continuation of the run). After T + 60 an
incident may fire again from the history still in memory: in the concrete
demo run, calls at times 0,1,2,61 produce an incident at time 1, a
suppressed evaluation at time 2 despite a higher score, and a second
incident at time 61 built from the retained alerts (second conjunct) —
cooldown admission never clears the memory store. -/
theorem C3_cooldown_suppression (cfg : Config) (s : EngineState) (T : Int)
    (a : Alert) (E : String) (calls : List (Int × Alert))
    (hfire : emitsForB E (ingestAlert cfg T a s).2 = true)
    (htimes : ∀ c ∈ calls, c.1 < T + 60) :
    (∀ r ∈ (runCalls cfg (ingestAlert cfg T a s).1 calls).2, emitsForB E r = false) ∧
    (runCalls defaultConfig {} demoCalls).2.map (emitsForB "10.1.1.1") =
      [false, true, false, true] := by
  constructor
  · obtain ⟨inc, hr, htgt⟩ := emitsForB_true hfire
    have hcd : lookupCd (ingestAlert cfg T a s).1.cooldowns E = some T := by
      have := ingestAlert_fire_cd cfg T a s inc hr
      rwa [htgt] at this
    exact runCalls_no_emit cfg E T calls _ hcd htimes
  · rfl

/-- C3 witness: the suppression theorem applied to the demo run, where the
call at time 1 fires for IP 10.1.1.1 and the call at time 2 is suppressed. -/
theorem C3_cooldown_suppression_witness :
    (∀ r ∈ (runCalls defaultConfig
        (ingestAlert defaultConfig 1 (demoAlert "Traffic Engine")
          (ingestAlert defaultConfig 0 (demoAlert "Artifact Engine") {}).1).1
        [(2, demoAlert "IDS")]).2,
      emitsForB "10.1.1.1" r = false) ∧
    (runCalls defaultConfig {} demoCalls).2.map (emitsForB "10.1.1.1") =
      [false, true, false, true] :=
  C3_cooldown_suppression defaultConfig
    (ingestAlert defaultConfig 0 (demoAlert "Artifact Engine") {}).1 1
    (demoAlert "Traffic Engine") "10.1.1.1" [(2, demoAlert "IDS")]
    (by decide) (by decide)

/-- C5 counterexample: the claim asserts that when no entity qualifies the
call returns nothing and the alert is recorded for every extracted entity.
On an alert extracting two entities but carrying an unrecognized severity,
the loop appends the alert for the first entity, then raises KeyError while
scoring it: the call neither returns nothing nor records the alert for the
second entity. -/
theorem C5_short_circuit_cx :
    extractEntities { badTwoEntityAlert with timestamp := 0 } = ["10.0.0.9", "FILE:f.exe"] ∧
    (ingestAlert defaultConfig 0 badTwoEntityAlert {}).2 = Except.error () ∧
    lookupMem (ingestAlert defaultConfig 0 badTwoEntityAlert {}).1.memory "10.0.0.9" =
      some [{ badTwoEntityAlert with timestamp := 0 }] ∧
    lookupMem (ingestAlert defaultConfig 0 badTwoEntityAlert {}).1.memory "FILE:f.exe" =
      none :=
  ⟨rfl, rfl, rfl, rfl⟩

/-- C5 amended: restricted to calls in which every evaluated entity history
carries recognized severities (so the scorer cannot raise), ingest_alert
iterates the extracted entities in order; at the first entity whose score
meets the threshold and whose cooldown admits it immediately returns the
incident, with the alert appended only for the preceding entities and the
winner and the entities after the winner untouched; if no entity qualifies
it returns nothing and the alert is recorded for every extracted entity. -/
theorem C5_first_match_short_circuit (cfg : Config) (now : Int) (a : Alert)
    (s : EngineState)
    (hval : ∀ e ∈ extractEntities { a with timestamp := now },
      ∀ x ∈ entityList (cleanOldMemory now cfg.time_window s.memory)
        { a with timestamp := now } e, knownSeverity x) :
    (∀ pre e0 post,
      extractEntities { a with timestamp := now } = pre ++ e0 :: post →
      (∀ e ∈ pre, qualifies cfg now s.cooldowns (cleanOldMemory now cfg.time_window s.memory)
        { a with timestamp := now } e = false) →
      qualifies cfg now s.cooldowns (cleanOldMemory now cfg.time_window s.memory)
        { a with timestamp := now } e0 = true →
      ∃ cnt, ingestAlert cfg now a s =
        ({ memory := appendMem (appendAll (cleanOldMemory now cfg.time_window s.memory)
              pre { a with timestamp := now }) e0 { a with timestamp := now }
           cooldowns := updateCd s.cooldowns e0 now
           total_alerts_processed := s.total_alerts_processed + 1
           incidents_generated := s.incidents_generated + 1 },
         .ok (some (buildIncident e0
           (entityList (cleanOldMemory now cfg.time_window s.memory)
             { a with timestamp := now } e0)
           (scoreOf (entityList (cleanOldMemory now cfg.time_window s.memory)
             { a with timestamp := now } e0))
           (enginesOf (entityList (cleanOldMemory now cfg.time_window s.memory)
             { a with timestamp := now } e0)) cnt))) ∧
        ∀ e ∈ post, lookupMem (ingestAlert cfg now a s).1.memory e =
          lookupMem (cleanOldMemory now cfg.time_window s.memory) e) ∧
    ((∀ e ∈ extractEntities { a with timestamp := now },
        qualifies cfg now s.cooldowns (cleanOldMemory now cfg.time_window s.memory)
          { a with timestamp := now } e = false) →
      ingestAlert cfg now a s =
        ({ s with
            memory := appendAll (cleanOldMemory now cfg.time_window s.memory)
              (extractEntities { a with timestamp := now }) { a with timestamp := now }
            total_alerts_processed := s.total_alerts_processed + 1 },
         .ok none)) := by
  constructor
  · intro pre e0 post hes hpre hq0
    have hne : extractEntities { a with timestamp := now } ≠ [] := by
      rw [hes]
      simp
    have hnd : (pre ++ e0 :: post).Nodup := hes ▸ extractEntities_nodup _
    obtain ⟨cnt, hloop⟩ := correlateLoop_first cfg now { a with timestamp := now }
      pre e0 post
      { s with
          memory := cleanOldMemory now cfg.time_window s.memory
          total_alerts_processed := s.total_alerts_processed + 1 }
      hnd (by intro e he x hx; exact hval e (hes ▸ he) x hx) hpre hq0
    have hmain : ingestAlert cfg now a s =
        ({ memory := appendMem (appendAll (cleanOldMemory now cfg.time_window s.memory)
              pre { a with timestamp := now }) e0 { a with timestamp := now }
           cooldowns := updateCd s.cooldowns e0 now
           total_alerts_processed := s.total_alerts_processed + 1
           incidents_generated := s.incidents_generated + 1 },
         .ok (some (buildIncident e0
           (entityList (cleanOldMemory now cfg.time_window s.memory)
             { a with timestamp := now } e0)
           (scoreOf (entityList (cleanOldMemory now cfg.time_window s.memory)
             { a with timestamp := now } e0))
           (enginesOf (entityList (cleanOldMemory now cfg.time_window s.memory)
             { a with timestamp := now } e0)) cnt))) := by
      rw [ingestAlert, if_neg hne, hes]
      exact hloop
    refine ⟨cnt, hmain, ?_⟩
    intro e he
    rw [hmain]
    have hsplit := List.nodup_append.mp hnd
    have hee0 : e ≠ e0 := by
      intro h
      exact (List.nodup_cons.mp hsplit.2.1).1 (h ▸ he)
    have hepre : e ∉ pre := fun hp => hsplit.2.2 hp (by simp [he])
    show lookupMem (appendMem (appendAll _ pre _) e0 _) e = _
    rw [lookupMem_appendMem_ne _ e0 e _ hee0,
      lookupMem_appendAll_not_mem _ pre _ e hepre]
  · intro hall
    by_cases hne : extractEntities { a with timestamp := now } = []
    · rw [ingestAlert, if_pos hne, hne]
      rfl
    · rw [ingestAlert, if_neg hne]
      exact correlateLoop_none cfg now { a with timestamp := now }
        (extractEntities { a with timestamp := now })
        { s with
            memory := cleanOldMemory now cfg.time_window s.memory
            total_alerts_processed := s.total_alerts_processed + 1 }
        (extractEntities_nodup _) (by intro e he x hx; exact hval e he x hx) hall

/-- C5 witness: the short-circuit theorem at the concrete scenario: the
second scenario call has the single extracted entity 10.0.0.5 qualifying
immediately (pre and post empty). -/
theorem C5_first_match_short_circuit_witness :
    (∀ pre e0 post,
      extractEntities { scA2 with timestamp := 10 } = pre ++ e0 :: post →
      (∀ e ∈ pre, qualifies defaultConfig 10
        (ingestAlert defaultConfig 0 scA1 {}).1.cooldowns
        (cleanOldMemory 10 defaultConfig.time_window (ingestAlert defaultConfig 0 scA1 {}).1.memory)
        { scA2 with timestamp := 10 } e = false) →
      qualifies defaultConfig 10 (ingestAlert defaultConfig 0 scA1 {}).1.cooldowns
        (cleanOldMemory 10 defaultConfig.time_window (ingestAlert defaultConfig 0 scA1 {}).1.memory)
        { scA2 with timestamp := 10 } e0 = true →
      ∃ cnt, ingestAlert defaultConfig 10 scA2 (ingestAlert defaultConfig 0 scA1 {}).1 =
        ({ memory := appendMem (appendAll
              (cleanOldMemory 10 defaultConfig.time_window (ingestAlert defaultConfig 0 scA1 {}).1.memory)
              pre { scA2 with timestamp := 10 }) e0 { scA2 with timestamp := 10 }
           cooldowns := updateCd (ingestAlert defaultConfig 0 scA1 {}).1.cooldowns e0 10
           total_alerts_processed := (ingestAlert defaultConfig 0 scA1 {}).1.total_alerts_processed + 1
           incidents_generated := (ingestAlert defaultConfig 0 scA1 {}).1.incidents_generated + 1 },
         .ok (some (buildIncident e0
           (entityList (cleanOldMemory 10 defaultConfig.time_window
              (ingestAlert defaultConfig 0 scA1 {}).1.memory) { scA2 with timestamp := 10 } e0)
           (scoreOf (entityList (cleanOldMemory 10 defaultConfig.time_window
              (ingestAlert defaultConfig 0 scA1 {}).1.memory) { scA2 with timestamp := 10 } e0))
           (enginesOf (entityList (cleanOldMemory 10 defaultConfig.time_window
              (ingestAlert defaultConfig 0 scA1 {}).1.memory) { scA2 with timestamp := 10 } e0)) cnt))) ∧
        ∀ e ∈ post, lookupMem (ingestAlert defaultConfig 10 scA2
            (ingestAlert defaultConfig 0 scA1 {}).1).1.memory e =
          lookupMem (cleanOldMemory 10 defaultConfig.time_window
            (ingestAlert defaultConfig 0 scA1 {}).1.memory) e) ∧
    ((∀ e ∈ extractEntities { scA2 with timestamp := 10 },
        qualifies defaultConfig 10 (ingestAlert defaultConfig 0 scA1 {}).1.cooldowns
          (cleanOldMemory 10 defaultConfig.time_window (ingestAlert defaultConfig 0 scA1 {}).1.memory)
          { scA2 with timestamp := 10 } e = false) →
      ingestAlert defaultConfig 10 scA2 (ingestAlert defaultConfig 0 scA1 {}).1 =
        ({ (ingestAlert defaultConfig 0 scA1 {}).1 with
            memory := appendAll
              (cleanOldMemory 10 defaultConfig.time_window (ingestAlert defaultConfig 0 scA1 {}).1.memory)
              (extractEntities { scA2 with timestamp := 10 }) { scA2 with timestamp := 10 }
            total_alerts_processed :=
              (ingestAlert defaultConfig 0 scA1 {}).1.total_alerts_processed + 1 },
         .ok none)) :=
  C5_first_match_short_circuit defaultConfig 10 scA2
    (ingestAlert defaultConfig 0 scA1 {}).1 (by decide)

/-- C7: the documented scenario with threshold 60 and window 900 on a fresh
engine. Ingesting A1 (Artifact Engine, Critical, IP 10.0.0.5) yields score
40 and no incident; ingesting A2 (Traffic Engine, Medium, same IP) within
the window yields raw sum 50 over 2 distinct engines, score
int(50 * 1.5) = 75 ≥ 60, and emits an incident for 10.0.0.5 with both
engines involved, no attack patterns, and alert count 2; its window bounds
are the two arrival times. -/
theorem C7_scenario (t1 t2 : Int) (h1 : t1 ≤ t2) (h2 : t2 - t1 < 900) :
    (ingestAlert defaultConfig t1 scA1 {}).2 = Except.ok none ∧
    scoreOf [{ scA1 with timestamp := t1 }] = 40 ∧
    rawScore [{ scA1 with timestamp := t1 }, { scA2 with timestamp := t2 }] = 50 ∧
    (enginesOf [{ scA1 with timestamp := t1 }, { scA2 with timestamp := t2 }]).length = 2 ∧
    ∃ inc, (ingestAlert defaultConfig t2 scA2 (ingestAlert defaultConfig t1 scA1 {}).1).2 =
        Except.ok (some inc) ∧
      inc.target_entity = "10.0.0.5" ∧
      inc.risk_score = 75 ∧
      inc.engines_involved = ["Artifact Engine", "Traffic Engine"] ∧
      inc.attack_patterns = [] ∧
      inc.alert_count = 2 ∧
      inc.window_start = t1 ∧ inc.window_end = t2 := by
  refine ⟨rfl, rfl, rfl, rfl, ?_⟩
  have hstate : (ingestAlert defaultConfig t1 scA1 {}).1 =
      ({ memory := [("10.0.0.5", [{ scA1 with timestamp := t1 }])]
         cooldowns := []
         total_alerts_processed := 1
         incidents_generated := 0 } : EngineState) := rfl
  rw [hstate]
  have hclean : cleanOldMemory t2 defaultConfig.time_window
      [("10.0.0.5", [{ scA1 with timestamp := t1 }])] =
      [("10.0.0.5", [{ scA1 with timestamp := t1 }])] := by
    simp [cleanOldMemory, defaultConfig, h2]
  have hent : extractEntities { scA2 with timestamp := t2 } = ["10.0.0.5"] := rfl
  have hv : ∀ x ∈ entityList [("10.0.0.5", [{ scA1 with timestamp := t1 }])]
      { scA2 with timestamp := t2 } "10.0.0.5", knownSeverity x := by
    intro x hx
    rcases (by simpa [entityList, lookupMem] using hx :
        x = { scA1 with timestamp := t1 } ∨ x = { scA2 with timestamp := t2 }) with rfl | rfl
    · exact Or.inl rfl
    · exact Or.inr (Or.inr (Or.inl rfl))
  obtain ⟨cnt0, hcalc0⟩ := calcRiskScore_ok
    (entityList [("10.0.0.5", [{ scA1 with timestamp := t1 }])]
      { scA2 with timestamp := t2 } "10.0.0.5") hv
  have hsc75 : scoreOf (entityList [("10.0.0.5", [{ scA1 with timestamp := t1 }])]
      { scA2 with timestamp := t2 } "10.0.0.5") = 75 := by
    rw [scoreOf_eq_of_ok hcalc0]
    have h50 : rawScore (entityList [("10.0.0.5", [{ scA1 with timestamp := t1 }])]
        { scA2 with timestamp := t2 } "10.0.0.5") = 50 := rfl
    have hlen : (enginesOf (entityList [("10.0.0.5", [{ scA1 with timestamp := t1 }])]
        { scA2 with timestamp := t2 } "10.0.0.5")).length = 2 := rfl
    rw [h50, hlen]
    decide
  have hq : qualifies defaultConfig t2 []
      [("10.0.0.5", [{ scA1 with timestamp := t1 }])]
      { scA2 with timestamp := t2 } "10.0.0.5" = true := by
    unfold qualifies
    rw [hsc75]
    rfl
  obtain ⟨cnt, hloop⟩ := correlateLoop_fire defaultConfig t2
    { scA2 with timestamp := t2 } "10.0.0.5" []
    ({ memory := [("10.0.0.5", [{ scA1 with timestamp := t1 }])]
       cooldowns := []
       total_alerts_processed := 1 + 1
       incidents_generated := 0 }) hv hq
  have hmain : (ingestAlert defaultConfig t2 scA2
      ({ memory := [("10.0.0.5", [{ scA1 with timestamp := t1 }])]
         cooldowns := []
         total_alerts_processed := 1
         incidents_generated := 0 } : EngineState)).2 =
      Except.ok (some (buildIncident "10.0.0.5"
        (entityList [("10.0.0.5", [{ scA1 with timestamp := t1 }])]
          { scA2 with timestamp := t2 } "10.0.0.5")
        (scoreOf (entityList [("10.0.0.5", [{ scA1 with timestamp := t1 }])]
          { scA2 with timestamp := t2 } "10.0.0.5"))
        (enginesOf (entityList [("10.0.0.5", [{ scA1 with timestamp := t1 }])]
          { scA2 with timestamp := t2 } "10.0.0.5")) cnt)) := by
    simp only [ingestAlert, hclean, hent]
    rw [if_neg (by simp : ¬(["10.0.0.5"] : List String) = [])]
    rw [hloop]
  have heng : enginesOf (entityList [("10.0.0.5", [{ scA1 with timestamp := t1 }])]
      { scA2 with timestamp := t2 } "10.0.0.5") =
      ["Artifact Engine", "Traffic Engine"] := rfl
  have hpat : detectAttackPatterns (entityList [("10.0.0.5", [{ scA1 with timestamp := t1 }])]
      { scA2 with timestamp := t2 } "10.0.0.5") = [] := rfl
  have hcount : (entityList [("10.0.0.5", [{ scA1 with timestamp := t1 }])]
      { scA2 with timestamp := t2 } "10.0.0.5").length = 2 := rfl
  exact ⟨_, hmain, rfl, hsc75, heng, hpat, hcount, min_eq_left h1, max_eq_right h1⟩

/-- C7 witness: the scenario theorem at arrival times 0 and 10. -/
theorem C7_scenario_witness :
    (ingestAlert defaultConfig 0 scA1 {}).2 = Except.ok none ∧
    scoreOf [{ scA1 with timestamp := 0 }] = 40 ∧
    rawScore [{ scA1 with timestamp := 0 }, { scA2 with timestamp := 10 }] = 50 ∧
    (enginesOf [{ scA1 with timestamp := 0 }, { scA2 with timestamp := 10 }]).length = 2 ∧
    ∃ inc, (ingestAlert defaultConfig 10 scA2 (ingestAlert defaultConfig 0 scA1 {}).1).2 =
        Except.ok (some inc) ∧
      inc.target_entity = "10.0.0.5" ∧
      inc.risk_score = 75 ∧
      inc.engines_involved = ["Artifact Engine", "Traffic Engine"] ∧
      inc.attack_patterns = [] ∧
      inc.alert_count = 2 ∧
      inc.window_start = 0 ∧ inc.window_end = 10 :=
  C7_scenario 0 10 (by decide) (by decide)

end CorrelationBrain
